import Mathlib

/-!
Shallow embedding of the interactive image-masking editor
(src/components/ImageEditor.tsx and src/App.tsx).

Numbers (JavaScript floats) are modelled as rationals, so the algebraic
identities hold exactly.  React `useState` component state is modelled as an
explicit `EditorState` record; each event handler becomes a function
`... → EditorState → EditorState`.  The DOM refs (`containerRef`,
`imageRef`) and the `isProcessing` prop are modelled by an `Env` record
passed to handlers that read them; handlers that close over `isProcessing`
but never read it (`handleMouseUp`, `handleWheel`) take the environment as
an ignored argument.
-/

/-- Point, from src/types.ts. -/
structure Point where
  x : ℚ
  y : ℚ
deriving DecidableEq

/-- DrawPath, from src/types.ts: a committed stroke. -/
structure DrawPath where
  points : List Point
  size : ℚ
deriving DecidableEq

/-- EditorMode, from src/types.ts. -/
inductive EditorMode where
  | DRAW
  | PAN
deriving DecidableEq

/-- ImageDimensions, from src/types.ts. -/
structure ImageDimensions where
  width : ℚ
  height : ℚ
deriving DecidableEq

/-- The `useState` fields of the ImageEditor component
(src/components/ImageEditor.tsx lines 16-29). -/
structure EditorState where
  mode : EditorMode
  brushSize : ℚ
  paths : List DrawPath
  scale : ℚ
  offset : Point
  isDragging : Bool
  lastMousePos : Point
  isDrawing : Bool
  currentPath : List Point
deriving DecidableEq

/-- The initial values of the `useState` hooks
(src/components/ImageEditor.tsx lines 17-29). -/
def initialEditorState : EditorState :=
  { mode := EditorMode.DRAW
    brushSize := 20
    paths := []
    scale := 1
    offset := { x := 0, y := 0 }
    isDragging := false
    lastMousePos := { x := 0, y := 0 }
    isDrawing := false
    currentPath := [] }

/-- The component's surroundings as seen by a handler invocation: the
`isProcessing` prop, whether `containerRef.current` and `imageRef.current`
are non-null, and the container's bounding rectangle origin. -/
structure Env where
  isProcessing : Bool
  hasContainer : Bool
  hasImage : Bool
  rectLeft : ℚ
  rectTop : ℚ
deriving DecidableEq

/-- getRelativeCoords (src/components/ImageEditor.tsx lines 108-124):
returns none when a ref is missing, otherwise the pointer position taken
relative to the container and mapped into image space by
`(container - offset) / scale`. -/
def getRelativeCoords (env : Env) (st : EditorState) (clientX clientY : ℚ) :
    Option Point :=
  if env.hasContainer && env.hasImage then
    let containerX := clientX - env.rectLeft
    let containerY := clientY - env.rectTop
    some { x := (containerX - st.offset.x) / st.scale
           y := (containerY - st.offset.y) / st.scale }
  else
    none

/-- Forward affine viewport transform `container = image * scale + offset`,
as applied to the whole canvas by the CSS transform
`translate(offset) scale(scale)` with transform origin `0 0`
(src/components/ImageEditor.tsx line 240) and stated in the spec. -/
def toContainerSpace (p : Point) (scale : ℚ) (offset : Point) : Point :=
  { x := p.x * scale + offset.x
    y := p.y * scale + offset.y }

/-- fitImageToContainer (src/components/ImageEditor.tsx lines 42-58):
early-returns when the container ref is missing; otherwise sets
`scale = min(clientWidth/imgWidth, clientHeight/imgHeight, 1) * 0.9`,
centers the image, and clears the committed paths. -/
def fitImageToContainer (hasContainer : Bool) (clientWidth clientHeight : ℚ)
    (imgWidth imgHeight : ℚ) (st : EditorState) : EditorState :=
  if hasContainer then
    let scaleX := clientWidth / imgWidth
    let scaleY := clientHeight / imgHeight
    let initialScale := min (min scaleX scaleY) 1 * (9 / 10)
    { st with
        scale := initialScale
        offset := { x := (clientWidth - imgWidth * initialScale) / 2
                    y := (clientHeight - imgHeight * initialScale) / 2 }
        paths := [] }
  else
    st

/-- handleMouseDown (src/components/ImageEditor.tsx lines 127-142). -/
def handleMouseDown (env : Env) (clientX clientY : ℚ) (st : EditorState) :
    EditorState :=
  if env.isProcessing then st
  else if st.mode = EditorMode.PAN then
    { st with isDragging := true, lastMousePos := { x := clientX, y := clientY } }
  else
    match getRelativeCoords env st clientX clientY with
    | some coords => { st with isDrawing := true, currentPath := [coords] }
    | none => st

/-- handleMouseMove (src/components/ImageEditor.tsx lines 144-162). -/
def handleMouseMove (env : Env) (clientX clientY : ℚ) (st : EditorState) :
    EditorState :=
  if env.isProcessing then st
  else if st.mode = EditorMode.PAN ∧ st.isDragging = true then
    let dx := clientX - st.lastMousePos.x
    let dy := clientY - st.lastMousePos.y
    { st with
        offset := { x := st.offset.x + dx, y := st.offset.y + dy }
        lastMousePos := { x := clientX, y := clientY } }
  else if st.mode = EditorMode.DRAW ∧ st.isDrawing = true then
    match getRelativeCoords env st clientX clientY with
    | some coords => { st with currentPath := st.currentPath ++ [coords] }
    | none => st
  else
    st

/-- handleMouseUp (src/components/ImageEditor.tsx lines 164-174).  The
handler closes over `isProcessing` but never reads it, hence the ignored
environment argument. -/
def handleMouseUp (_env : Env) (st : EditorState) : EditorState :=
  if st.mode = EditorMode.PAN then
    { st with isDragging := false }
  else if st.mode = EditorMode.DRAW ∧ st.isDrawing = true then
    if 0 < st.currentPath.length then
      { st with
          isDrawing := false
          paths := st.paths ++ [{ points := st.currentPath, size := st.brushSize }]
          currentPath := [] }
    else
      { st with isDrawing := false }
  else
    st

/-- handleWheel (src/components/ImageEditor.tsx lines 176-180):
`scale = max(0.1, min(5, scale - deltaY * 0.001))`.  The handler closes
over `isProcessing` but never reads it, hence the ignored environment
argument. -/
def handleWheel (_env : Env) (deltaY : ℚ) (st : EditorState) : EditorState :=
  { st with scale := max (1 / 10) (min 5 (st.scale - deltaY * (1 / 1000))) }

/-- setMode: the toolbar buttons call the `useState` setter directly
(src/components/ImageEditor.tsx lines 261 and 268). -/
def setMode (m : EditorMode) (st : EditorState) : EditorState :=
  { st with mode := m }

/-- One pointer-move event together with the environment it is delivered in. -/
structure MoveEvent where
  env : Env
  clientX : ℚ
  clientY : ℚ
deriving DecidableEq

/-- Delivery of a sequence of pointer-move events. -/
def applyMoves (moves : List MoveEvent) (st : EditorState) : EditorState :=
  moves.foldl (fun s m => handleMouseMove m.env m.clientX m.clientY s) st

/-- The abstract content of the offscreen mask canvas built by generateMask:
its pixel dimensions, the fill applied first, and the stroked paths replayed
onto it in order. -/
structure Mask where
  width : ℚ
  height : ℚ
  background : String
  drawn : List DrawPath
deriving DecidableEq

/-- generateMask (src/components/ImageEditor.tsx lines 182-211):
early-returns when the image ref is missing; otherwise allocates a canvas at
the image's native dimensions, fills it black, and replays every committed
path (skipping paths with fewer than one point) in white at its stored
size.  The viewport scale and offset are never read. -/
def generateMask (img : Option ImageDimensions) (st : EditorState) :
    Option Mask :=
  match img with
  | none => none
  | some d =>
      some { width := d.width
             height := d.height
             background := "#000000"
             drawn := st.paths.filter (fun p => decide (¬ p.points.length < 1)) }

/-- Outcome of the asynchronous removeWatermark call (src/App.tsx line 34):
it resolves with a result image or rejects. -/
inductive RemoteOutcome where
  | ok (result : String)
  | failure
deriving DecidableEq

/-- The `useState` fields of the App component (src/App.tsx lines 8-11),
together with the editor component's state. -/
structure AppState where
  originalImage : Option String
  processedImage : Option String
  isProcessing : Bool
  loadingText : String
  editor : EditorState
deriving DecidableEq

/-- handleGenerate (src/App.tsx lines 27-42), run to completion for a given
outcome of the awaited remote call: the guard on a missing original image,
the busy flag set before the call and cleared in the `finally` block on both
paths, the result stored on success, and the alert on failure.  The Bool in
the result records whether the failure alert was produced. -/
def handleGenerate (_maskBase64 : String) (outcome : RemoteOutcome)
    (st : AppState) : AppState × Bool :=
  match st.originalImage with
  | none => (st, false)
  | some _ =>
      let busy := { st with
                      isProcessing := true
                      loadingText := "小刘正在卖力擦除中..." }
      match outcome with
      | RemoteOutcome.ok result =>
          ({ busy with processedImage := some result, isProcessing := false },
           false)
      | RemoteOutcome.failure =>
          ({ busy with isProcessing := false }, true)

/-! ### Helper lemmas characterising each handler branch -/

theorem getRelativeCoords_some (env : Env) (st : EditorState)
    (clientX clientY : ℚ) (hc : env.hasContainer = true)
    (hi : env.hasImage = true) :
    getRelativeCoords env st clientX clientY =
      some { x := (clientX - env.rectLeft - st.offset.x) / st.scale
             y := (clientY - env.rectTop - st.offset.y) / st.scale } := by
  unfold getRelativeCoords
  rw [hc, hi]
  rfl

theorem handleMouseDown_draw (env : Env) (clientX clientY : ℚ)
    (st : EditorState) (c : Point) (hb : env.isProcessing = false)
    (hm : st.mode = EditorMode.DRAW)
    (hc : getRelativeCoords env st clientX clientY = some c) :
    handleMouseDown env clientX clientY st =
      { st with isDrawing := true, currentPath := [c] } := by
  unfold handleMouseDown
  rw [if_neg (by rw [hb]; exact Bool.false_ne_true), if_neg (by rw [hm]; simp),
    hc]

theorem handleMouseMove_pan_notDragging (env : Env) (clientX clientY : ℚ)
    (st : EditorState) (hm : st.mode = EditorMode.PAN)
    (hg : st.isDragging = false) :
    handleMouseMove env clientX clientY st = st := by
  unfold handleMouseMove
  split
  · rfl
  · rw [if_neg (by rw [hg]; simp), if_neg (by rw [hm]; simp)]

theorem handleMouseMove_draw_some (env : Env) (clientX clientY : ℚ)
    (st : EditorState) (c : Point) (hb : env.isProcessing = false)
    (hm : st.mode = EditorMode.DRAW) (hd : st.isDrawing = true)
    (hc : getRelativeCoords env st clientX clientY = some c) :
    handleMouseMove env clientX clientY st =
      { st with currentPath := st.currentPath ++ [c] } := by
  unfold handleMouseMove
  rw [if_neg (by rw [hb]; exact Bool.false_ne_true), if_neg (by rw [hm]; simp),
    if_pos ⟨hm, hd⟩, hc]

theorem handleMouseUp_pan (env : Env) (st : EditorState)
    (hm : st.mode = EditorMode.PAN) :
    handleMouseUp env st = { st with isDragging := false } := by
  unfold handleMouseUp
  rw [if_pos hm]

theorem handleMouseUp_draw_commit (env : Env) (st : EditorState)
    (hm : st.mode = EditorMode.DRAW) (hd : st.isDrawing = true)
    (hne : st.currentPath ≠ []) :
    handleMouseUp env st =
      { st with
          isDrawing := false
          paths := st.paths ++ [{ points := st.currentPath, size := st.brushSize }]
          currentPath := [] } := by
  unfold handleMouseUp
  rw [if_neg (by rw [hm]; simp), if_pos ⟨hm, hd⟩,
    if_pos (List.length_pos.mpr hne)]

theorem handleMouseMove_draw_invariant (env : Env) (clientX clientY : ℚ)
    (st : EditorState) (hm : st.mode = EditorMode.DRAW)
    (hd : st.isDrawing = true) :
    (handleMouseMove env clientX clientY st).mode = EditorMode.DRAW ∧
    (handleMouseMove env clientX clientY st).isDrawing = true ∧
    (handleMouseMove env clientX clientY st).paths = st.paths ∧
    (handleMouseMove env clientX clientY st).brushSize = st.brushSize ∧
    (st.currentPath ≠ [] →
      (handleMouseMove env clientX clientY st).currentPath ≠ []) := by
  unfold handleMouseMove
  split
  · exact ⟨hm, hd, rfl, rfl, fun h => h⟩
  · rw [if_neg (by rw [hm]; simp), if_pos ⟨hm, hd⟩]
    cases getRelativeCoords env st clientX clientY with
    | none => exact ⟨hm, hd, rfl, rfl, fun h => h⟩
    | some c => exact ⟨hm, hd, rfl, rfl, fun _ => by simp⟩

theorem applyMoves_draw_invariant (moves : List MoveEvent) (st : EditorState)
    (hm : st.mode = EditorMode.DRAW) (hd : st.isDrawing = true) :
    (applyMoves moves st).mode = EditorMode.DRAW ∧
    (applyMoves moves st).isDrawing = true ∧
    (applyMoves moves st).paths = st.paths ∧
    (applyMoves moves st).brushSize = st.brushSize ∧
    (st.currentPath ≠ [] → (applyMoves moves st).currentPath ≠ []) := by
  induction moves generalizing st with
  | nil => exact ⟨hm, hd, rfl, rfl, fun h => h⟩
  | cons m ms ih =>
      have hstep := handleMouseMove_draw_invariant m.env m.clientX m.clientY st hm hd
      have hrec := ih (handleMouseMove m.env m.clientX m.clientY st)
        hstep.1 hstep.2.1
      refine ⟨hrec.1, hrec.2.1, ?_, ?_, ?_⟩
      · rw [show applyMoves (m :: ms) st =
          applyMoves ms (handleMouseMove m.env m.clientX m.clientY st) from rfl,
          hrec.2.2.1, hstep.2.2.1]
      · rw [show applyMoves (m :: ms) st =
          applyMoves ms (handleMouseMove m.env m.clientX m.clientY st) from rfl,
          hrec.2.2.2.1, hstep.2.2.2.1]
      · exact fun h => hrec.2.2.2.2 (hstep.2.2.2.2 h)

/-! ### C1: the image-space coordinates are the algebraic inverse of the
viewport transform -/

/-- C1.  For every environment, state with positive scale, and client
position, the image-space point computed by getRelativeCoords is mapped by
the forward affine transform `container = image * scale + offset` back to
the container-space pointer position: getRelativeCoords inverts the
viewport transform exactly. -/
theorem getRelativeCoords_roundtrip (env : Env) (st : EditorState)
    (clientX clientY : ℚ) (ip : Point) (hs : 0 < st.scale)
    (h : getRelativeCoords env st clientX clientY = some ip) :
    toContainerSpace ip st.scale st.offset =
      { x := clientX - env.rectLeft, y := clientY - env.rectTop } := by
  have hne : st.scale ≠ 0 := ne_of_gt hs
  unfold getRelativeCoords at h
  split at h
  · injection h with h
    subst h
    unfold toContainerSpace
    simp only [Point.mk.injEq]
    constructor
    · rw [div_mul_cancel₀ _ hne]; ring
    · rw [div_mul_cancel₀ _ hne]; ring
  · exact absurd h (by simp)

/-- Witness for C1 at a concrete input: scale 2, offset (5, 7), pointer at
client position (25, 17) with the container rectangle at the origin. -/
theorem getRelativeCoords_roundtrip_witness :
    toContainerSpace { x := 10, y := 5 } 2 { x := 5, y := 7 } =
      { x := 25 - 0, y := 17 - 0 } :=
  getRelativeCoords_roundtrip
    { isProcessing := false, hasContainer := true, hasImage := true,
      rectLeft := 0, rectTop := 0 }
    { initialEditorState with scale := 2, offset := { x := 5, y := 7 } }
    25 17 { x := 10, y := 5 } (by norm_num)
    (by norm_num [getRelativeCoords, initialEditorState])

/-! ### C2: fitImageToContainer scale and centering -/

/-- C2.  fitImageToContainer computes
`scale = min(containerW/imgW, containerH/imgH, 1) * 0.9` and centers the
image with `offset = ((containerW - imgW*scale)/2, (containerH - imgH*scale)/2)`;
in particular an 800 by 600 image in a 1000 by 800 container yields scale
9/10 and offset (140, 130). -/
theorem fitImageToContainer_spec :
    ((fitImageToContainer true 1000 800 800 600 initialEditorState).scale = 9 / 10 ∧
      (fitImageToContainer true 1000 800 800 600 initialEditorState).offset =
        { x := 140, y := 130 }) ∧
    ∀ (cw ch iw ih : ℚ) (st : EditorState),
      (fitImageToContainer true cw ch iw ih st).scale =
          min (min (cw / iw) (ch / ih)) 1 * (9 / 10) ∧
      (fitImageToContainer true cw ch iw ih st).offset =
          { x := (cw - iw * (min (min (cw / iw) (ch / ih)) 1 * (9 / 10))) / 2
            y := (ch - ih * (min (min (cw / iw) (ch / ih)) 1 * (9 / 10))) / 2 } := by
  refine ⟨⟨?_, ?_⟩, fun cw ch iw ih st => ⟨rfl, rfl⟩⟩
  · show min (min ((1000 : ℚ) / 800) (800 / 600)) 1 * (9 / 10) = 9 / 10
    norm_num [min_def]
  · show (Point.mk ((1000 - 800 * (min (min ((1000 : ℚ) / 800) (800 / 600)) 1 * (9 / 10))) / 2)
      ((800 - 600 * (min (min ((1000 : ℚ) / 800) (800 / 600)) 1 * (9 / 10))) / 2)) = _
    norm_num [min_def]

/-! ### C3: the scale bounds -/

/-- Counterexample to C3 as stated: fitImageToContainer does not keep the
scale at or above 0.1 for every image and container size.  A 1000 by 1000
image in a 1 by 1 container yields scale 9/10000 < 1/10. -/
theorem fitImageToContainer_scale_below_lower_bound :
    (fitImageToContainer true 1 1 1000 1000 initialEditorState).scale < 1 / 10 := by
  show min (min ((1 : ℚ) / 1000) (1 / 1000)) 1 * (9 / 10) < 1 / 10
  norm_num [min_def]

/-- C3 amended.  The scale is within [0.1, 5] in the initial state and
after every zoom step; fitImageToContainer always yields a scale at most
0.9 (hence at most 5) and, for nonnegative image and container dimensions,
a nonnegative scale — but that scale can fall below 0.1, so the lower bound
0.1 does not hold after every fitImageToContainer call. -/
theorem scale_bounds_amended :
    (1 / 10 ≤ initialEditorState.scale ∧ initialEditorState.scale ≤ 5) ∧
    (∀ (env : Env) (deltaY : ℚ) (st : EditorState),
      1 / 10 ≤ (handleWheel env deltaY st).scale ∧
        (handleWheel env deltaY st).scale ≤ 5) ∧
    (∀ (cw ch iw ih : ℚ) (st : EditorState),
      0 ≤ cw → 0 ≤ ch → 0 ≤ iw → 0 ≤ ih →
      0 ≤ (fitImageToContainer true cw ch iw ih st).scale ∧
        (fitImageToContainer true cw ch iw ih st).scale ≤ 5) := by
  refine ⟨by norm_num [initialEditorState], fun env deltaY st => ⟨?_, ?_⟩,
    fun cw ch iw ih st hcw hch hiw hih => ⟨?_, ?_⟩⟩
  · exact le_max_left _ _
  · exact max_le (by norm_num) (min_le_left _ _)
  · show 0 ≤ min (min (cw / iw) (ch / ih)) 1 * (9 / 10)
    have h1 : 0 ≤ cw / iw := div_nonneg hcw hiw
    have h2 : 0 ≤ ch / ih := div_nonneg hch hih
    have : (0 : ℚ) ≤ min (min (cw / iw) (ch / ih)) 1 :=
      le_min (le_min h1 h2) (by norm_num)
    nlinarith
  · show min (min (cw / iw) (ch / ih)) 1 * (9 / 10) ≤ 5
    have h1 : min (min (cw / iw) (ch / ih)) 1 ≤ 1 := min_le_right _ _
    nlinarith

/-- Witness for C3 amended at concrete inputs: a zoom step with deltaY
-100 from the initial state, and fitImageToContainer on the 800 by 600
image in the 1000 by 800 container. -/
theorem scale_bounds_amended_witness :
    (1 / 10 ≤
        (handleWheel
          { isProcessing := false, hasContainer := true, hasImage := true,
            rectLeft := 0, rectTop := 0 } (-100) initialEditorState).scale ∧
      (handleWheel
          { isProcessing := false, hasContainer := true, hasImage := true,
            rectLeft := 0, rectTop := 0 } (-100) initialEditorState).scale ≤ 5) ∧
    (0 ≤ (fitImageToContainer true 1000 800 800 600 initialEditorState).scale ∧
      (fitImageToContainer true 1000 800 800 600 initialEditorState).scale ≤ 5) :=
  ⟨scale_bounds_amended.2.1 _ (-100) initialEditorState,
    scale_bounds_amended.2.2 1000 800 800 600 initialEditorState
      (by norm_num) (by norm_num) (by norm_num) (by norm_num)⟩

/-! ### C5: suppression of input while a generation request is in flight -/

/-- A busy environment with both refs present: a generation request is in
flight. -/
def busyEnv : Env :=
  { isProcessing := true, hasContainer := true, hasImage := true,
    rectLeft := 0, rectTop := 0 }

/-- Counterexample to C5 as stated: the wheel handler has no busy-flag
guard, so a wheel event delivered while isProcessing is set does change the
editor state — from the initial state, a wheel with deltaY -100 moves the
scale from 1 to 1.1. -/
theorem handleWheel_ignores_busy_flag :
    busyEnv.isProcessing = true ∧
      handleWheel busyEnv (-100) initialEditorState ≠ initialEditorState := by
  refine ⟨rfl, fun h => ?_⟩
  have hs : (handleWheel busyEnv (-100) initialEditorState).scale =
      initialEditorState.scale := by rw [h]
  rw [show (handleWheel busyEnv (-100) initialEditorState).scale =
      max (1 / 10) (min 5 (1 - (-100) * (1 / 1000))) from rfl] at hs
  norm_num [initialEditorState, min_def, max_def] at hs

/-- C5 amended.  While the busy flag is set, pointer-down and pointer-move
events leave the editor state entirely unchanged; pointer-up and wheel
events are not guarded by the busy flag (the wheel still changes the scale,
as the counterexample shows). -/
theorem busy_suppresses_down_and_move (env : Env) (clientX clientY : ℚ)
    (st : EditorState) (hb : env.isProcessing = true) :
    handleMouseDown env clientX clientY st = st ∧
      handleMouseMove env clientX clientY st = st := by
  constructor
  · unfold handleMouseDown
    rw [if_pos hb]
  · unfold handleMouseMove
    rw [if_pos hb]

/-- Witness for C5 amended: a pointer-down and a pointer-move at (3, 4)
delivered in the busy environment leave the initial state unchanged. -/
theorem busy_suppresses_down_and_move_witness :
    handleMouseDown busyEnv 3 4 initialEditorState = initialEditorState ∧
      handleMouseMove busyEnv 3 4 initialEditorState = initialEditorState :=
  busy_suppresses_down_and_move busyEnv 3 4 initialEditorState rfl

/-! ### C6: mode is read per event, not latched at gesture start -/

/-- An idle environment with both refs present. -/
def idleEnv : Env :=
  { isProcessing := false, hasContainer := true, hasImage := true,
    rectLeft := 0, rectTop := 0 }

/-- Counterexample to C6 as stated: mode is not latched at gesture start.
A gesture begun in Draw mode (seeding the in-progress path with one point)
whose mode is switched to Pan mid-gesture neither keeps accumulating points
on move nor commits the stroke on release: after the switch, a move leaves
the in-progress path at the single seeded point, and the release leaves the
history empty. -/
theorem mode_not_latched :
    (handleMouseMove idleEnv 20 20
        (setMode EditorMode.PAN
          (handleMouseDown idleEnv 10 10 initialEditorState))).currentPath =
      [{ x := 10, y := 10 }] ∧
    (handleMouseUp idleEnv
        (handleMouseMove idleEnv 20 20
          (setMode EditorMode.PAN
            (handleMouseDown idleEnv 10 10 initialEditorState)))).paths = [] := by
  have hcoords : getRelativeCoords idleEnv initialEditorState 10 10 =
      some { x := 10, y := 10 } := by
    rw [getRelativeCoords_some idleEnv initialEditorState 10 10 rfl rfl]
    norm_num [idleEnv, initialEditorState]
  have h1 : handleMouseDown idleEnv 10 10 initialEditorState =
      { initialEditorState with
          isDrawing := true, currentPath := [{ x := 10, y := 10 }] } :=
    handleMouseDown_draw idleEnv 10 10 initialEditorState _ rfl rfl hcoords
  have h2 : setMode EditorMode.PAN
      { initialEditorState with
          isDrawing := true, currentPath := [{ x := 10, y := 10 }] } =
      { initialEditorState with
          mode := EditorMode.PAN, isDrawing := true,
          currentPath := [{ x := 10, y := 10 }] } := rfl
  have h3 : handleMouseMove idleEnv 20 20
      { initialEditorState with
          mode := EditorMode.PAN, isDrawing := true,
          currentPath := [{ x := 10, y := 10 }] } =
      { initialEditorState with
          mode := EditorMode.PAN, isDrawing := true,
          currentPath := [{ x := 10, y := 10 }] } :=
    handleMouseMove_pan_notDragging idleEnv 20 20 _ rfl rfl
  have h4 : handleMouseUp idleEnv
      { initialEditorState with
          mode := EditorMode.PAN, isDrawing := true,
          currentPath := [{ x := 10, y := 10 }] } =
      { initialEditorState with
          mode := EditorMode.PAN, isDrawing := true,
          currentPath := [{ x := 10, y := 10 }], isDragging := false } :=
    handleMouseUp_pan idleEnv _ rfl
  rw [h1, h2, h3, h4]
  exact ⟨rfl, rfl⟩

/-- C6 amended.  Each pointer event is interpreted in the mode current at
that event, not the mode latched at gesture start: if a gesture begins in
Draw mode (drawing flag set, drag flag clear) and the mode is switched to
Pan, every subsequent pointer-move leaves the state unchanged (no points
accumulate and no pan applies, since the drag flag is clear), and the
release merely clears the drag flag — the in-progress stroke is not
committed, the history is unchanged, and the in-progress path and drawing
flag are left as they were. -/
theorem mode_switch_mid_gesture (env : Env) (clientX clientY : ℚ)
    (st : EditorState) (_hm : st.mode = EditorMode.DRAW)
    (_hd : st.isDrawing = true) (hg : st.isDragging = false) :
    handleMouseMove env clientX clientY (setMode EditorMode.PAN st) =
        setMode EditorMode.PAN st ∧
      handleMouseUp env (setMode EditorMode.PAN st) =
        { st with mode := EditorMode.PAN, isDragging := false } := by
  constructor
  · unfold handleMouseMove setMode
    split
    · rfl
    · rw [if_neg, if_neg]
      · simp
      · simp [hg]
  · unfold handleMouseUp setMode
    rw [if_pos rfl]

/-- Witness for C6 amended: the concrete mid-gesture mode switch of the
counterexample, started from the initial state by a pointer-down at
(10, 10). -/
theorem mode_switch_mid_gesture_witness :
    (handleMouseMove idleEnv 20 20
        (setMode EditorMode.PAN (handleMouseDown idleEnv 10 10 initialEditorState)) =
      setMode EditorMode.PAN (handleMouseDown idleEnv 10 10 initialEditorState)) ∧
    (handleMouseUp idleEnv
        (setMode EditorMode.PAN (handleMouseDown idleEnv 10 10 initialEditorState)) =
      { handleMouseDown idleEnv 10 10 initialEditorState with
          mode := EditorMode.PAN, isDragging := false }) :=
  mode_switch_mid_gesture idleEnv 20 20
    (handleMouseDown idleEnv 10 10 initialEditorState) rfl rfl rfl

/-! ### C7: effect of a new image load -/

/-- Counterexample to C7 as stated: loading a new image does not clear the
in-progress stroke.  From a state whose in-progress path holds the single
point (3, 4), the image-load fit leaves that path in place. -/
theorem loadImage_keeps_currentPath :
    (fitImageToContainer true 1000 800 800 600
        { initialEditorState with
            currentPath := [{ x := 3, y := 4 }], isDrawing := true }).currentPath =
      [{ x := 3, y := 4 }] := by
  rfl

/-- C7 amended.  On a new image load (the image onload handler calls
fitImageToContainer), the viewport is reset to the fitted scale and
centering offset, the stroke history is cleared, and the mode and brush
size are preserved — but the in-progress stroke and the drawing flag are
left unchanged, not cleared. -/
theorem loadImage_effect (cw ch iw ih : ℚ) (st : EditorState) :
    (fitImageToContainer true cw ch iw ih st).paths = [] ∧
    (fitImageToContainer true cw ch iw ih st).mode = st.mode ∧
    (fitImageToContainer true cw ch iw ih st).brushSize = st.brushSize ∧
    (fitImageToContainer true cw ch iw ih st).currentPath = st.currentPath ∧
    (fitImageToContainer true cw ch iw ih st).isDrawing = st.isDrawing ∧
    (fitImageToContainer true cw ch iw ih st).scale =
        min (min (cw / iw) (ch / ih)) 1 * (9 / 10) ∧
    (fitImageToContainer true cw ch iw ih st).offset =
        { x := (cw - iw * (min (min (cw / iw) (ch / ih)) 1 * (9 / 10))) / 2
          y := (ch - ih * (min (min (cw / iw) (ch / ih)) 1 * (9 / 10))) / 2 } :=
  ⟨rfl, rfl, rfl, rfl, rfl, rfl, rfl⟩

/-! ### C8: failure of the remote inpainting call -/

/-- C8.  When handleGenerate runs with an original image present and the
remote call rejects, the busy flag ends cleared, the failure alert is
produced, and the editor state, the stroke history and viewport within it,
the original image, and the processed image are all exactly as before the
call; moreover the busy flag ends cleared on every outcome, success
included. -/
theorem handleGenerate_failure (mask img : String) (st : AppState)
    (ho : st.originalImage = some img) :
    ((handleGenerate mask RemoteOutcome.failure st).1.isProcessing = false ∧
      (handleGenerate mask RemoteOutcome.failure st).2 = true ∧
      (handleGenerate mask RemoteOutcome.failure st).1.editor = st.editor ∧
      (handleGenerate mask RemoteOutcome.failure st).1.originalImage =
        st.originalImage ∧
      (handleGenerate mask RemoteOutcome.failure st).1.processedImage =
        st.processedImage) ∧
    ∀ outcome : RemoteOutcome,
      (handleGenerate mask outcome st).1.isProcessing = false := by
  constructor
  · unfold handleGenerate
    rw [ho]
    exact ⟨rfl, rfl, rfl, rfl, rfl⟩
  · intro outcome
    unfold handleGenerate
    rw [ho]
    cases outcome <;> rfl

/-- Witness for C8 at a concrete app state holding an original image and
one committed stroke. -/
theorem handleGenerate_failure_witness :
    ((handleGenerate "mask" RemoteOutcome.failure
        { originalImage := some "img", processedImage := none,
          isProcessing := true, loadingText := "处理中...",
          editor :=
            { initialEditorState with
                paths := [{ points := [{ x := 1, y := 2 }], size := 20 }] } }).1.isProcessing
        = false ∧
      (handleGenerate "mask" RemoteOutcome.failure
        { originalImage := some "img", processedImage := none,
          isProcessing := true, loadingText := "处理中...",
          editor :=
            { initialEditorState with
                paths := [{ points := [{ x := 1, y := 2 }], size := 20 }] } }).2
        = true ∧
      (handleGenerate "mask" RemoteOutcome.failure
        { originalImage := some "img", processedImage := none,
          isProcessing := true, loadingText := "处理中...",
          editor :=
            { initialEditorState with
                paths := [{ points := [{ x := 1, y := 2 }], size := 20 }] } }).1.editor
        = { initialEditorState with
              paths := [{ points := [{ x := 1, y := 2 }], size := 20 }] } ∧
      (handleGenerate "mask" RemoteOutcome.failure
        { originalImage := some "img", processedImage := none,
          isProcessing := true, loadingText := "处理中...",
          editor :=
            { initialEditorState with
                paths := [{ points := [{ x := 1, y := 2 }], size := 20 }] } }).1.originalImage
        = some "img" ∧
      (handleGenerate "mask" RemoteOutcome.failure
        { originalImage := some "img", processedImage := none,
          isProcessing := true, loadingText := "处理中...",
          editor :=
            { initialEditorState with
                paths := [{ points := [{ x := 1, y := 2 }], size := 20 }] } }).1.processedImage
        = none) ∧
    ∀ outcome : RemoteOutcome,
      (handleGenerate "mask" outcome
        { originalImage := some "img", processedImage := none,
          isProcessing := true, loadingText := "处理中...",
          editor :=
            { initialEditorState with
                paths := [{ points := [{ x := 1, y := 2 }], size := 20 }] } }).1.isProcessing
        = false :=
  handleGenerate_failure "mask" "img" _ rfl

/-! ### Further helper lemmas: idle draw-mode states -/

theorem handleMouseDown_draw_none (env : Env) (clientX clientY : ℚ)
    (st : EditorState) (hb : env.isProcessing = false)
    (hm : st.mode = EditorMode.DRAW)
    (hc : getRelativeCoords env st clientX clientY = none) :
    handleMouseDown env clientX clientY st = st := by
  unfold handleMouseDown
  rw [if_neg (by rw [hb]; exact Bool.false_ne_true),
    if_neg (by rw [hm]; simp), hc]

theorem handleMouseMove_draw_notDrawing (env : Env) (clientX clientY : ℚ)
    (st : EditorState) (hm : st.mode = EditorMode.DRAW)
    (hd : st.isDrawing = false) :
    handleMouseMove env clientX clientY st = st := by
  unfold handleMouseMove
  split
  · rfl
  · rw [if_neg (by rw [hm]; simp), if_neg (by rw [hd]; simp)]

theorem applyMoves_draw_notDrawing (moves : List MoveEvent) (st : EditorState)
    (hm : st.mode = EditorMode.DRAW) (hd : st.isDrawing = false) :
    applyMoves moves st = st := by
  induction moves with
  | nil => rfl
  | cons m ms ih =>
      rw [show applyMoves (m :: ms) st =
        applyMoves ms (handleMouseMove m.env m.clientX m.clientY st) from rfl,
        handleMouseMove_draw_notDrawing m.env m.clientX m.clientY st hm hd, ih]

theorem handleMouseUp_draw_notDrawing (env : Env) (st : EditorState)
    (hm : st.mode = EditorMode.DRAW) (hd : st.isDrawing = false) :
    handleMouseUp env st = st := by
  unfold handleMouseUp
  rw [if_neg (by rw [hm]; simp), if_neg (by rw [hd]; simp)]

/-! ### C4: history growth per gesture -/

/-- C4.  For every gesture delivered from an idle state in Draw mode while
not busy — a pointer-down, then any sequence of pointer-moves, then a
pointer-up — the stroke history length increases by exactly 1 when the
in-progress point sequence is non-empty at release, and by exactly 0 when
it is empty (a gesture whose pointer-down obtains no coordinate records no
point, and its release mutates nothing). -/
theorem gesture_history_increment (st : EditorState) (env upEnv : Env)
    (clientX clientY : ℚ) (moves : List MoveEvent)
    (hb : env.isProcessing = false) (hm : st.mode = EditorMode.DRAW)
    (hd : st.isDrawing = false) (hcp : st.currentPath = []) :
    ((applyMoves moves (handleMouseDown env clientX clientY st)).currentPath ≠ [] →
      (handleMouseUp upEnv
          (applyMoves moves (handleMouseDown env clientX clientY st))).paths.length =
        st.paths.length + 1) ∧
    ((applyMoves moves (handleMouseDown env clientX clientY st)).currentPath = [] →
      (handleMouseUp upEnv
          (applyMoves moves (handleMouseDown env clientX clientY st))).paths.length =
        st.paths.length) := by
  cases hopt : getRelativeCoords env st clientX clientY with
  | some c =>
      rw [handleMouseDown_draw env clientX clientY st c hb hm hopt]
      have inv := applyMoves_draw_invariant moves
        { st with isDrawing := true, currentPath := [c] } hm rfl
      have hne := inv.2.2.2.2 (by simp)
      constructor
      · intro _
        rw [handleMouseUp_draw_commit upEnv _ inv.1 inv.2.1 hne]
        show (_ ++ [_]).length = _
        rw [List.length_append, inv.2.2.1]
        rfl
      · intro h
        exact absurd h hne
  | none =>
      rw [handleMouseDown_draw_none env clientX clientY st hb hm hopt,
        applyMoves_draw_notDrawing moves st hm hd]
      constructor
      · intro h
        exact absurd hcp h
      · intro _
        rw [handleMouseUp_draw_notDrawing upEnv st hm hd]

/-- Witness for C4 at a concrete non-empty gesture: pointer-down at
(10, 10) from the initial state, one pointer-move at (20, 20), pointer-up;
the history grows from length 0 to length 1. -/
theorem gesture_history_increment_witness :
    (handleMouseUp idleEnv
        (applyMoves [{ env := idleEnv, clientX := 20, clientY := 20 }]
          (handleMouseDown idleEnv 10 10 initialEditorState))).paths.length = 1 :=
  (gesture_history_increment initialEditorState idleEnv idleEnv 10 10
      [{ env := idleEnv, clientX := 20, clientY := 20 }] rfl rfl rfl rfl).1
    (by
      rw [handleMouseDown_draw idleEnv 10 10 initialEditorState
          { x := 10, y := 10 } rfl rfl
          (by
            rw [getRelativeCoords_some idleEnv initialEditorState 10 10 rfl rfl]
            norm_num [idleEnv, initialEditorState])]
      exact (applyMoves_draw_invariant _ _ rfl rfl).2.2.2.2 (by simp))

/-! ### C9: mask dimensions and viewport independence -/

/-- C9.  For every editor state whose viewport scale lies in [0.1, 5] and
every loaded image, generateMask produces a mask whose width and height
equal the image's native dimensions, and its output depends only on the
stroke history: two states with the same committed paths yield the same
mask whatever their viewport scale and offset. -/
theorem generateMask_dimensions (st : EditorState) (d : ImageDimensions)
    (_hlo : 1 / 10 ≤ st.scale) (_hhi : st.scale ≤ 5) :
    (∃ m, generateMask (some d) st = some m ∧
      m.width = d.width ∧ m.height = d.height) ∧
    ∀ st2 : EditorState, st2.paths = st.paths →
      generateMask (some d) st2 = generateMask (some d) st := by
  constructor
  · exact ⟨_, rfl, rfl, rfl⟩
  · intro st2 h
    simp only [generateMask]
    rw [h]

/-- Witness for C9: an 800 by 600 image, the initial state, and a second
state with the same (empty) history but scale 3 and offset (42, -7). -/
theorem generateMask_dimensions_witness :
    (∃ m, generateMask (some { width := 800, height := 600 })
        initialEditorState = some m ∧ m.width = 800 ∧ m.height = 600) ∧
    generateMask (some { width := 800, height := 600 })
        { initialEditorState with scale := 3, offset := { x := 42, y := -7 } } =
      generateMask (some { width := 800, height := 600 }) initialEditorState :=
  ⟨(generateMask_dimensions initialEditorState { width := 800, height := 600 }
      (by norm_num [initialEditorState]) (by norm_num [initialEditorState])).1,
    (generateMask_dimensions initialEditorState { width := 800, height := 600 }
      (by norm_num [initialEditorState]) (by norm_num [initialEditorState])).2
      _ rfl⟩

/-! ### C10: a successfully begun draw gesture always commits -/

/-- C10.  Whenever a draw gesture successfully begins — pointer-down in
Draw mode, not busy, and a coordinate is obtained — the in-progress stroke
is seeded with exactly the one obtained point; after any sequence of
pointer-move events it is still non-empty, so the empty-gesture discard
branch of the release handler is not taken: the release commits exactly one
stroke, appending the in-progress points with the brush size to the
history. -/
theorem begun_gesture_commits (st : EditorState) (env upEnv : Env)
    (clientX clientY : ℚ) (c : Point) (moves : List MoveEvent)
    (hb : env.isProcessing = false) (hm : st.mode = EditorMode.DRAW)
    (hc : getRelativeCoords env st clientX clientY = some c) :
    (handleMouseDown env clientX clientY st).currentPath = [c] ∧
    (applyMoves moves (handleMouseDown env clientX clientY st)).currentPath ≠ [] ∧
    (handleMouseUp upEnv
        (applyMoves moves (handleMouseDown env clientX clientY st))).paths =
      st.paths ++
        [{ points :=
            (applyMoves moves (handleMouseDown env clientX clientY st)).currentPath
           size := st.brushSize }] ∧
    (handleMouseUp upEnv
        (applyMoves moves (handleMouseDown env clientX clientY st))).paths.length =
      st.paths.length + 1 := by
  rw [handleMouseDown_draw env clientX clientY st c hb hm hc]
  have inv := applyMoves_draw_invariant moves
    { st with isDrawing := true, currentPath := [c] } hm rfl
  have hne := inv.2.2.2.2 (by simp)
  refine ⟨rfl, hne, ?_, ?_⟩
  · rw [handleMouseUp_draw_commit upEnv _ inv.1 inv.2.1 hne, inv.2.2.1,
      inv.2.2.2.1]
  · rw [handleMouseUp_draw_commit upEnv _ inv.1 inv.2.1 hne]
    show (_ ++ [_]).length = _
    rw [List.length_append, inv.2.2.1]
    rfl

/-- Witness for C10 at a concrete gesture: pointer-down at (10, 10) from
the initial state, one pointer-move at (20, 20), pointer-up. -/
theorem begun_gesture_commits_witness :
    (handleMouseDown idleEnv 10 10 initialEditorState).currentPath =
      [{ x := 10, y := 10 }] ∧
    (applyMoves [{ env := idleEnv, clientX := 20, clientY := 20 }]
        (handleMouseDown idleEnv 10 10 initialEditorState)).currentPath ≠ [] ∧
    (handleMouseUp idleEnv
        (applyMoves [{ env := idleEnv, clientX := 20, clientY := 20 }]
          (handleMouseDown idleEnv 10 10 initialEditorState))).paths.length = 1 := by
  have h := begun_gesture_commits initialEditorState idleEnv idleEnv 10 10
    { x := 10, y := 10 } [{ env := idleEnv, clientX := 20, clientY := 20 }]
    rfl rfl
    (by
      rw [getRelativeCoords_some idleEnv initialEditorState 10 10 rfl rfl]
      norm_num [idleEnv, initialEditorState])
  exact ⟨h.1, h.2.1, h.2.2.2⟩
